import Mathlib

/-!
Shallow embedding of the two activity handlers of this repository:

* `getStoreMessageContentActivityHandler` (StorageStage), from
  src/unnamed/part_000;
* `getCreateNotificationActivityHandler` (PlanningStage), from
  src/MessageStatusUpdaterActivity/handler.ts.

External store calls are modelled by oracle outcomes carried in an
environment (`StorageEnv`, `PlanEnv`); store state is threaded explicitly
and every store call performed is logged in an operation trace.  A TS
`throw` is modelled by `Except.error`, a returned value by `Except.ok`.
Input decoding is external (io-ts); a handler input is `Option`-typed,
`none` standing for an input that fails to decode.
-/

set_option maxRecDepth 4096

deriving instance DecidableEq for Except

/-- `BlockedInboxOrChannelEnum` / `NotificationChannelEnum` of
io-functions-commons: the channels INBOX, EMAIL, WEBHOOK. -/
inductive Channel
  | INBOX
  | EMAIL
  | WEBHOOK
deriving DecidableEq, Repr

/-- `RetrievedProfile`: the decoded recipient profile.  `isInboxEnabled` and
`isWebhookEnabled` are optional booleans (the source checks them with
`=== true`); `isEmailEnabled` is defaulted to `true` by the decoder, per the
source comment "this is true by default, it's false only for users that have
isEmailEnabled = false in their profile". -/
structure RetrievedProfile where
  fiscalCode : String
  isInboxEnabled : Option Bool
  isEmailEnabled : Bool
  isWebhookEnabled : Option Bool
  email : Option String
  blockedInboxOrChannels : Option (List (String × List Channel))
deriving DecidableEq, Repr

/-- `NewMessageWithoutContent` (the fields the handlers read). -/
structure NewMessageWithoutContent where
  id : String
  fiscalCode : String
  senderServiceId : String
deriving DecidableEq, Repr

/-- `CreatedMessageEventSenderMetadata` (the fields the handlers read). -/
structure CreatedMessageEventSenderMetadata where
  serviceName : String
  organizationName : String
  departmentName : String
  requireSecureChannels : Bool
deriving DecidableEq, Repr

/-- `CreatedMessageEvent`: the decoded message event. -/
structure CreatedMessageEvent where
  message : NewMessageWithoutContent
  content : String
  serviceVersion : Nat
  senderMetadata : CreatedMessageEventSenderMetadata
deriving DecidableEq, Repr

/-- src/unnamed/part_000 lines 110-114:
`fromNullable(profile.blockedInboxOrChannels)
   .chain(bc => fromNullable(bc[senderServiceId])).getOrElse(new Set())`. -/
def blockedChannelsFor (profile : RetrievedProfile)
    (senderServiceId : String) : List Channel :=
  (profile.blockedInboxOrChannels.bind
    (fun bc => bc.lookup senderServiceId)).getD []

/-- The `reason` field of `FailedStoreMessageContentActivityResult`. -/
inductive StoreReason
  | BAD_DATA
  | MASTER_INBOX_DISABLED
  | PERMANENT_ERROR
  | PROFILE_NOT_FOUND
  | SENDER_BLOCKED
deriving DecidableEq, Repr

/-- `StoreMessageContentActivityResult`: tagged union of
`SuccessfulStoreMessageContentActivityResult` and
`FailedStoreMessageContentActivityResult`. -/
inductive StoreMessageContentActivityResult
  | SUCCESS (blockedInboxOrChannels : List Channel) (profile : RetrievedProfile)
  | FAILURE (reason : StoreReason)
deriving DecidableEq, Repr

/-- Modelled from the spec: ContentBlobStore.put with overwrite semantics
(`attachStoredContent` lives in io-functions-commons, not under src/):
content is stored keyed by (messageId, recipientId), overwriting any prior
entry for that key. -/
def blobPut (blobs : List ((String × String) × String))
    (messageId fiscalCode content : String) :
    List ((String × String) × String) :=
  ((messageId, fiscalCode), content) ::
    blobs.filter (fun e => e.1 != (messageId, fiscalCode))

/-- Modelled from the spec: MessageRecordStore.setPending (the message
`createOrUpdate` lives in io-functions-commons, not under src/): the pending
flag stored for (messageId, recipientId) is replaced by the given value. -/
def setPendingRecord (messages : List ((String × String) × Bool))
    (messageId fiscalCode : String) (pending : Bool) :
    List ((String × String) × Bool) :=
  ((messageId, fiscalCode), pending) ::
    messages.filter (fun e => e.1 != (messageId, fiscalCode))

/-- The state of the stores the StorageStage writes to. -/
structure StorageStores where
  blobs : List ((String × String) × String)
  messages : List ((String × String) × Bool)
deriving DecidableEq, Repr

/-- Oracle outcomes for the store calls the StorageStage may perform. -/
structure StorageEnv where
  findProfileResult : Except String (Option RetrievedProfile)
  attachResult : Except String Unit
  setPendingResult : Except String Unit

/-- Store calls the StorageStage may perform, for the operation trace. -/
inductive StorageOp
  | findProfileOp
  | attachContentOp
  | setPendingOp
deriving DecidableEq, Repr

/-- Output of one StorageStage run: the returned/raised result, the final
store state, and the trace of store calls performed. -/
structure StorageOut where
  result : Except String StoreMessageContentActivityResult
  stores : StorageStores
  ops : List StorageOp

/-- `getStoreMessageContentActivityHandler` (src/unnamed/part_000 lines
58-183), with store calls resolved through the oracle environment and store
writes applied to the threaded state. -/
def getStoreMessageContentActivityHandler (env : StorageEnv)
    (stores : StorageStores) (input : Option CreatedMessageEvent) :
    StorageOut :=
  match input with
  | none =>
    ⟨.ok (.FAILURE .BAD_DATA), stores, []⟩
  | some createdMessageEvent =>
    let newMessageWithoutContent := createdMessageEvent.message
    match env.findProfileResult with
    | .error _ =>
      ⟨.error "Error while fetching profile", stores, [.findProfileOp]⟩
    | .ok none =>
      ⟨.ok (.FAILURE .PROFILE_NOT_FOUND), stores, [.findProfileOp]⟩
    | .ok (some profile) =>
      let blockedInboxOrChannels :=
        blockedChannelsFor profile newMessageWithoutContent.senderServiceId
      let isInboxEnabled := profile.isInboxEnabled == some true
      if !isInboxEnabled then
        ⟨.ok (.FAILURE .MASTER_INBOX_DISABLED), stores, [.findProfileOp]⟩
      else if blockedInboxOrChannels.contains .INBOX then
        ⟨.ok (.FAILURE .SENDER_BLOCKED), stores, [.findProfileOp]⟩
      else
        match env.attachResult with
        | .error _ =>
          ⟨.error "Error while storing message content", stores,
            [.findProfileOp, .attachContentOp]⟩
        | .ok _ =>
          let stores1 := { stores with
            blobs := blobPut stores.blobs newMessageWithoutContent.id
              newMessageWithoutContent.fiscalCode createdMessageEvent.content }
          match env.setPendingResult with
          | .error _ =>
            ⟨.error "Error while updating message pending status", stores1,
              [.findProfileOp, .attachContentOp, .setPendingOp]⟩
          | .ok _ =>
            let stores2 := { stores1 with
              messages := setPendingRecord stores1.messages
                newMessageWithoutContent.id
                newMessageWithoutContent.fiscalCode false }
            ⟨.ok (.SUCCESS blockedInboxOrChannels profile), stores2,
              [.findProfileOp, .attachContentOp, .setPendingOp]⟩

/-- `NotificationChannelEmail` as built by `getEmailAddressFromProfile`. -/
structure NotificationChannelEmail where
  addressSource : String
  toAddress : String
deriving DecidableEq, Repr

/-- src/MessageStatusUpdaterActivity/handler.ts lines 97-103:
`fromNullable(profile.email).map(email => ({addressSource:
PROFILE_ADDRESS, toAddress: email}))`. -/
def getEmailAddressFromProfile (profile : RetrievedProfile) :
    Option NotificationChannelEmail :=
  profile.email.map fun email =>
    { addressSource := "PROFILE_ADDRESS", toAddress := email }

/-- The per-channel targets of a `NewNotification` (`channels` field). -/
structure NotificationChannels where
  email : Option NotificationChannelEmail
  webhook : Option String
deriving DecidableEq, Repr

/-- `NewNotification` as assembled by the handler (lines 315-325). -/
structure NewNotification where
  id : String
  fiscalCode : String
  messageId : String
  channels : NotificationChannels
deriving DecidableEq, Repr

/-- `NotificationEvent` as returned by `createNotification` (lines 128-133). -/
structure NotificationEvent where
  content : String
  message : NewMessageWithoutContent
  notificationId : String
  senderMetadata : CreatedMessageEventSenderMetadata
deriving DecidableEq, Repr

/-- `CreateNotificationActivityResult`: tagged union of the `some` and
`none` results (lines 145-167). -/
inductive CreateNotificationActivityResult
  | someResult (hasEmail hasWebhook : Bool) (notificationEvent : NotificationEvent)
  | noneResult
deriving DecidableEq, Repr

/-- `CreateNotificationActivityInput` (lines 136-139): the original message
event plus the `SuccessfulStoreMessageContentActivityResult` payload. -/
structure CreateNotificationActivityInput where
  createdMessageEvent : CreatedMessageEvent
  blockedInboxOrChannels : List Channel
  profile : RetrievedProfile
deriving DecidableEq, Repr

/-- Modelled from the spec: SenderHistoryStore.upsertVersion (the
`SenderServiceModel.createOrUpdate` implementation lives in
io-functions-commons, not under src/): the stored version for
(recipientId, senderServiceId) becomes max(existing, incoming). -/
def upsertVersion (store : List ((String × String) × Nat))
    (fiscalCode senderServiceId : String) (version : Nat) :
    List ((String × String) × Nat) :=
  match store.lookup (fiscalCode, senderServiceId) with
  | none =>
    ((fiscalCode, senderServiceId), version) ::
      store.filter (fun e => e.1 != (fiscalCode, senderServiceId))
  | some existing =>
    ((fiscalCode, senderServiceId), max existing version) ::
      store.filter (fun e => e.1 != (fiscalCode, senderServiceId))

/-- The state of the stores the PlanningStage writes to. -/
structure PlanStores where
  senderHistory : List ((String × String) × Nat)
  notifications : List NewNotification
deriving DecidableEq, Repr

/-- Oracle outcomes and configuration for the PlanningStage: the configured
default webhook URL, the ulid the generator yields, and the outcomes of the
sender-service upsert and the notification create. -/
structure PlanEnv where
  defaultWebhookUrl : String
  generatedId : String
  upsertResult : Except String Unit
  createResult : Except String Unit

/-- Store calls the PlanningStage may perform, for the operation trace. -/
inductive PlanOp
  | upsertSenderServiceOp
  | createNotificationOp
deriving DecidableEq, Repr

/-- Output of one PlanningStage run: the returned/raised result, the final
store state, and the trace of store calls performed. -/
structure PlanOut where
  result : Except String CreateNotificationActivityResult
  stores : PlanStores
  ops : List PlanOp

/-- The handler local `maybeEmailNotificationAddress`
(src/MessageStatusUpdaterActivity/handler.ts lines 215-241): the email
target, `some` exactly when email is enabled in the profile, not blocked for
the sender service, allowed by the sender (no secure channels required) and
a profile email address exists. -/
def maybeEmailNotificationAddress (inp : CreateNotificationActivityInput) :
    Option NotificationChannelEmail :=
  let isEmailEnabledInProfile := inp.profile.isEmailEnabled
  let isEmailBlockedForService := inp.blockedInboxOrChannels.contains .EMAIL
  let maybeEmailFromProfile := getEmailAddressFromProfile inp.profile
  let isEmailChannelAllowed :=
    !inp.createdMessageEvent.senderMetadata.requireSecureChannels
  if isEmailEnabledInProfile && !isEmailBlockedForService
      && isEmailChannelAllowed then
    maybeEmailFromProfile
  else
    none

/-- The handler local `maybeWebhookNotificationUrl`
(src/MessageStatusUpdaterActivity/handler.ts lines 252-269): the webhook
target, `some defaultWebhookUrl` exactly when the webhook is enabled in the
profile (`=== true`) and not blocked for the sender service. -/
def maybeWebhookNotificationUrl (defaultWebhookUrl : String)
    (inp : CreateNotificationActivityInput) : Option String :=
  let isWebhookEnabledInProfile := inp.profile.isWebhookEnabled == some true
  let isWebhookBlockedForService := inp.blockedInboxOrChannels.contains .WEBHOOK
  if isWebhookEnabledInProfile && !isWebhookBlockedForService then
    some defaultWebhookUrl
  else
    none

/-- `getCreateNotificationActivityHandler`
(src/MessageStatusUpdaterActivity/handler.ts lines 176-347, inlining
`createNotification`, lines 108-134), with store calls resolved through the
oracle environment and store writes applied to the threaded state. -/
def getCreateNotificationActivityHandler (env : PlanEnv) (stores : PlanStores)
    (input : Option CreateNotificationActivityInput) : PlanOut :=
  match input with
  | none =>
    ⟨.ok .noneResult, stores, []⟩
  | some inp =>
    let createdMessageEvent := inp.createdMessageEvent
    let senderMetadata := createdMessageEvent.senderMetadata
    let newMessageWithoutContent := createdMessageEvent.message
    let maybeEmailNotificationAddress := maybeEmailNotificationAddress inp
    let maybeWebhookNotificationUrl :=
      maybeWebhookNotificationUrl env.defaultWebhookUrl inp
    match env.upsertResult with
    | .error e =>
      ⟨.error ("Cannot save sender service id: " ++ e), stores,
        [.upsertSenderServiceOp]⟩
    | .ok _ =>
      let stores1 := { stores with
        senderHistory := upsertVersion stores.senderHistory
          newMessageWithoutContent.fiscalCode
          newMessageWithoutContent.senderServiceId
          createdMessageEvent.serviceVersion }
      let noChannelsConfigured :=
        maybeEmailNotificationAddress.isNone
          && maybeWebhookNotificationUrl.isNone
      if noChannelsConfigured then
        ⟨.ok .noneResult, stores1, [.upsertSenderServiceOp]⟩
      else
        let newNotification : NewNotification :=
          { id := env.generatedId,
            fiscalCode := newMessageWithoutContent.fiscalCode,
            messageId := newMessageWithoutContent.id,
            channels :=
              { email := maybeEmailNotificationAddress,
                webhook := maybeWebhookNotificationUrl } }
        match env.createResult with
        | .error e =>
          ⟨.error ("Cannot save notification to database: " ++ e), stores1,
            [.upsertSenderServiceOp, .createNotificationOp]⟩
        | .ok _ =>
          let stores2 := { stores1 with
            notifications := newNotification :: stores1.notifications }
          ⟨.ok (.someResult maybeEmailNotificationAddress.isSome
              maybeWebhookNotificationUrl.isSome
              { content := createdMessageEvent.content,
                message := newMessageWithoutContent,
                notificationId := newNotification.id,
                senderMetadata := senderMetadata }),
            stores2, [.upsertSenderServiceOp, .createNotificationOp]⟩

/-- Eligibility of the email channel, as the claims state it: email enabled
in the profile, EMAIL not blocked for the sender, secure channels not
required by the sender, and a profile email address present. -/
def emailEligible (inp : CreateNotificationActivityInput) : Bool :=
  inp.profile.isEmailEnabled
    && !(inp.blockedInboxOrChannels.contains .EMAIL)
    && !inp.createdMessageEvent.senderMetadata.requireSecureChannels
    && inp.profile.email.isSome

/-- Eligibility of the webhook channel, as the claims state it: webhook
enabled in the profile and WEBHOOK not blocked for the sender. -/
def webhookEligible (inp : CreateNotificationActivityInput) : Bool :=
  (inp.profile.isWebhookEnabled == some true)
    && !(inp.blockedInboxOrChannels.contains .WEBHOOK)

/-- Whether a PlanningStage result activates the email channel: it is a
`someResult` with `hasEmail = true`. -/
def resultHasEmail : CreateNotificationActivityResult → Bool
  | .someResult hasEmail _ _ => hasEmail
  | .noneResult => false

/-- Whether a PlanningStage result activates the webhook channel: it is a
`someResult` with `hasWebhook = true`. -/
def resultHasWebhook : CreateNotificationActivityResult → Bool
  | .someResult _ hasWebhook _ => hasWebhook
  | .noneResult => false

/-- Whether an `Except` outcome is a success. -/
def exceptOk {α : Type} : Except String α → Bool
  | .ok _ => true
  | .error _ => false

/-- Whether the store call behind a StorageStage operation succeeds under a
given oracle environment. -/
def storageOpOk (env : StorageEnv) : StorageOp → Bool
  | .findProfileOp => exceptOk env.findProfileResult
  | .attachContentOp => exceptOk env.attachResult
  | .setPendingOp => exceptOk env.setPendingResult

/-- Whether the store call behind a PlanningStage operation succeeds under a
given oracle environment. -/
def planOpOk (env : PlanEnv) : PlanOp → Bool
  | .upsertSenderServiceOp => exceptOk env.upsertResult
  | .createNotificationOp => exceptOk env.createResult

theorem maybeEmailNotificationAddress_isSome
    (inp : CreateNotificationActivityInput) :
    (maybeEmailNotificationAddress inp).isSome = emailEligible inp := by
  unfold maybeEmailNotificationAddress emailEligible getEmailAddressFromProfile
  rcases hE : inp.profile.isEmailEnabled <;>
    rcases hB : inp.blockedInboxOrChannels.contains Channel.EMAIL <;>
    rcases hS : inp.createdMessageEvent.senderMetadata.requireSecureChannels <;>
    simp [hE, hB, hS]

theorem maybeWebhookNotificationUrl_isSome (defaultWebhookUrl : String)
    (inp : CreateNotificationActivityInput) :
    (maybeWebhookNotificationUrl defaultWebhookUrl inp).isSome
      = webhookEligible inp := by
  unfold maybeWebhookNotificationUrl webhookEligible
  rcases hW : inp.profile.isWebhookEnabled == some true <;>
    rcases hB : inp.blockedInboxOrChannels.contains Channel.WEBHOOK <;>
    simp [hW, hB]

/-! Concrete fixtures used by the witness theorems. -/

def profileFull : RetrievedProfile :=
  { fiscalCode := "AAABBB80A01C123D", isInboxEnabled := some true,
    isEmailEnabled := true, isWebhookEnabled := some true,
    email := some "mail@example.com", blockedInboxOrChannels := none }

def profileAllOff : RetrievedProfile :=
  { fiscalCode := "AAABBB80A01C123D", isInboxEnabled := some true,
    isEmailEnabled := false, isWebhookEnabled := some false,
    email := none, blockedInboxOrChannels := none }

def messageFix : NewMessageWithoutContent :=
  { id := "MSG001", fiscalCode := "AAABBB80A01C123D",
    senderServiceId := "service1" }

def senderMetadataFix : CreatedMessageEventSenderMetadata :=
  { serviceName := "svcName", organizationName := "orgName",
    departmentName := "depName", requireSecureChannels := false }

def eventFix : CreatedMessageEvent :=
  { message := messageFix, content := "body", serviceVersion := 3,
    senderMetadata := senderMetadataFix }

def planEnvOk : PlanEnv :=
  { defaultWebhookUrl := "https://example.com/webhook",
    generatedId := "01ARZ3NDEKTSV4RRFFQ69G5FAV",
    upsertResult := .ok (), createResult := .ok () }

def planStoresEmpty : PlanStores :=
  { senderHistory := [], notifications := [] }

def planInputFix : CreateNotificationActivityInput :=
  { createdMessageEvent := eventFix, blockedInboxOrChannels := [],
    profile := profileFull }

def planInputAllOff : CreateNotificationActivityInput :=
  { createdMessageEvent := eventFix, blockedInboxOrChannels := [],
    profile := profileAllOff }

def storageStoresEmpty : StorageStores :=
  { blobs := [], messages := [] }

def storageEnvOk : StorageEnv :=
  { findProfileResult := .ok (some profileFull), attachResult := .ok (),
    setPendingResult := .ok () }

/-- C1: for every decoded PlanningStage input (run with the two store calls
succeeding, so that a result is returned), the email channel is activated
(result `someResult` with `hasEmail = true`) iff `profile.isEmailEnabled`
holds, EMAIL is not blocked for the sender, the sender does not require
secure channels, and a profile email address is present; the webhook channel
is activated iff `profile.isWebhookEnabled` is `true` and WEBHOOK is not
blocked for the sender — `requireSecureChannels` has no effect on webhook. -/
theorem C1_channel_eligibility_matrix (env : PlanEnv) (st : PlanStores)
    (inp : CreateNotificationActivityInput) (u v : Unit)
    (hu : env.upsertResult = .ok u) (hc : env.createResult = .ok v) :
    ∃ r, (getCreateNotificationActivityHandler env st (some inp)).result = .ok r
      ∧ resultHasEmail r = emailEligible inp
      ∧ resultHasWebhook r = webhookEligible inp := by
  unfold getCreateNotificationActivityHandler
  simp only [hu, hc]
  split
  · next hnone =>
    rw [Bool.and_eq_true] at hnone
    have he : (maybeEmailNotificationAddress inp).isSome = false := by
      rcases h : maybeEmailNotificationAddress inp with _ | x
      · rfl
      · rw [h] at hnone; simp [Option.isNone] at hnone
    have hw : (maybeWebhookNotificationUrl env.defaultWebhookUrl inp).isSome
        = false := by
      rcases h : maybeWebhookNotificationUrl env.defaultWebhookUrl inp
          with _ | x
      · rfl
      · rw [h] at hnone; simp [Option.isNone] at hnone
    refine ⟨.noneResult, rfl, ?_, ?_⟩
    · rw [← maybeEmailNotificationAddress_isSome inp, he]; rfl
    · rw [← maybeWebhookNotificationUrl_isSome env.defaultWebhookUrl inp, hw]
      rfl
  · refine ⟨_, rfl, ?_, ?_⟩
    · rw [← maybeEmailNotificationAddress_isSome inp]; rfl
    · rw [← maybeWebhookNotificationUrl_isSome env.defaultWebhookUrl inp]; rfl

/-- C1 witness: the eligibility matrix evaluated on a concrete profile with
email and webhook enabled, nothing blocked, secure channels not required. -/
theorem C1_channel_eligibility_matrix_witness :
    planEnvOk.upsertResult = .ok () ∧ planEnvOk.createResult = .ok ()
      ∧ ∃ r,
        (getCreateNotificationActivityHandler planEnvOk planStoresEmpty
          (some planInputFix)).result = .ok r
        ∧ resultHasEmail r = emailEligible planInputFix
        ∧ resultHasWebhook r = webhookEligible planInputFix :=
  ⟨rfl, rfl,
    C1_channel_eligibility_matrix planEnvOk planStoresEmpty planInputFix
      () () rfl rfl⟩

def storageEnvFindFail : StorageEnv :=
  { findProfileResult := .error "db down", attachResult := .ok (),
    setPendingResult := .ok () }

def planEnvUpsertFail : PlanEnv :=
  { defaultWebhookUrl := "https://example.com/webhook",
    generatedId := "01ARZ3NDEKTSV4RRFFQ69G5FAV",
    upsertResult := .error "db down", createResult := .ok () }

/-- Every FAILURE value the StorageStage can return carries one of the four
terminal business reasons. -/
theorem storageFailureReasonCases (env : StorageEnv) (st : StorageStores)
    (input : Option CreatedMessageEvent) (r : StoreReason)
    (h : (getStoreMessageContentActivityHandler env st input).result
      = .ok (.FAILURE r)) :
    r = .BAD_DATA ∨ r = .PROFILE_NOT_FOUND ∨ r = .MASTER_INBOX_DISABLED
      ∨ r = .SENDER_BLOCKED := by
  rcases input with _ | ev
  · simp [getStoreMessageContentActivityHandler] at h
    simp [h.symm]
  · unfold getStoreMessageContentActivityHandler at h
    rcases hf : env.findProfileResult with e | mp <;> rw [hf] at h
    · simp at h
    · rcases mp with _ | p
      · simp at h; simp [h.symm]
      · simp only at h
        split at h
        · simp at h; simp [h.symm]
        · split at h
          · simp at h; simp [h.symm]
          · rcases ha : env.attachResult with e | u <;> rw [ha] at h
            · simp at h
            · rcases hs : env.setPendingResult with e | u' <;> rw [hs] at h
              · simp at h
              · simp at h

/-- The StorageStage raises an exception iff one of the store calls it
actually performed infra-failed. -/
theorem storageErrorIffOpFails (env : StorageEnv) (st : StorageStores)
    (input : Option CreatedMessageEvent) :
    (∃ e, (getStoreMessageContentActivityHandler env st input).result
        = .error e)
      ↔ ∃ op ∈ (getStoreMessageContentActivityHandler env st input).ops,
          storageOpOk env op = false := by
  rcases input with _ | ev
  · simp [getStoreMessageContentActivityHandler]
  · unfold getStoreMessageContentActivityHandler
    rcases hf : env.findProfileResult with e | mp
    · simp [hf, storageOpOk, exceptOk]
    · rcases mp with _ | p
      · simp [hf, storageOpOk, exceptOk]
      · simp only [hf]
        split
        · simp [storageOpOk, exceptOk, hf]
        · split
          · simp [storageOpOk, exceptOk, hf]
          · rcases ha : env.attachResult with e | u
            · simp [ha, hf, storageOpOk, exceptOk]
            · rcases hs : env.setPendingResult with e | u'
              · simp [ha, hs, hf, storageOpOk, exceptOk]
              · simp [ha, hs, hf, storageOpOk, exceptOk]

/-- The PlanningStage raises an exception iff one of the store calls it
actually performed infra-failed. -/
theorem planErrorIffOpFails (env : PlanEnv) (st : PlanStores)
    (input : Option CreateNotificationActivityInput) :
    (∃ e, (getCreateNotificationActivityHandler env st input).result
        = .error e)
      ↔ ∃ op ∈ (getCreateNotificationActivityHandler env st input).ops,
          planOpOk env op = false := by
  rcases input with _ | inp
  · simp [getCreateNotificationActivityHandler]
  · unfold getCreateNotificationActivityHandler
    rcases hu : env.upsertResult with e | u
    · simp [hu, planOpOk, exceptOk]
    · simp only [hu]
      split
      · simp [planOpOk, exceptOk, hu]
      · rcases hc : env.createResult with e | v
        · simp [hc, hu, planOpOk, exceptOk]
        · simp [hc, hu, planOpOk, exceptOk]

/-- C2: terminal business failures are returned as FAILURE values carrying
one of the four terminal reasons and are never thrown, while an exception is
raised exactly when one of the store calls actually performed (profile
lookup, blob write, pending-flag update, sender-history upsert, notification
create) infra-fails — so an infra failure is never encoded as a returned
FAILURE or NONE value, and a returned value implies every performed store
call succeeded. -/
theorem C2_failure_classification (env : StorageEnv) (st : StorageStores)
    (input : Option CreatedMessageEvent) (penv : PlanEnv) (pst : PlanStores)
    (pinput : Option CreateNotificationActivityInput) :
    (∀ r, (getStoreMessageContentActivityHandler env st input).result
        = .ok (.FAILURE r) →
      r = .BAD_DATA ∨ r = .PROFILE_NOT_FOUND ∨ r = .MASTER_INBOX_DISABLED
        ∨ r = .SENDER_BLOCKED)
    ∧ ((∃ e, (getStoreMessageContentActivityHandler env st input).result
          = .error e)
        ↔ ∃ op ∈ (getStoreMessageContentActivityHandler env st input).ops,
            storageOpOk env op = false)
    ∧ ((∃ e, (getCreateNotificationActivityHandler penv pst pinput).result
          = .error e)
        ↔ ∃ op ∈ (getCreateNotificationActivityHandler penv pst pinput).ops,
            planOpOk penv op = false) :=
  ⟨fun r h => storageFailureReasonCases env st input r h,
    storageErrorIffOpFails env st input,
    planErrorIffOpFails penv pst pinput⟩

/-- C2 witness: an undecodable input yields the terminal BAD_DATA value; a
failing profile lookup makes the StorageStage raise; a failing sender-history
upsert makes the PlanningStage raise. -/
theorem C2_failure_classification_witness :
    (StoreReason.BAD_DATA = .BAD_DATA
      ∨ StoreReason.BAD_DATA = .PROFILE_NOT_FOUND
      ∨ StoreReason.BAD_DATA = .MASTER_INBOX_DISABLED
      ∨ StoreReason.BAD_DATA = .SENDER_BLOCKED)
    ∧ (∃ op ∈ (getStoreMessageContentActivityHandler storageEnvFindFail
          storageStoresEmpty (some eventFix)).ops,
        storageOpOk storageEnvFindFail op = false)
    ∧ (∃ e, (getCreateNotificationActivityHandler planEnvUpsertFail
          planStoresEmpty (some planInputFix)).result = .error e) :=
  ⟨(C2_failure_classification storageEnvOk storageStoresEmpty none planEnvOk
      planStoresEmpty none).1 .BAD_DATA rfl,
    (C2_failure_classification storageEnvFindFail storageStoresEmpty
      (some eventFix) planEnvOk planStoresEmpty none).2.1.mp
      ⟨"Error while fetching profile", rfl⟩,
    (C2_failure_classification storageEnvOk storageStoresEmpty none
      planEnvUpsertFail planStoresEmpty (some planInputFix)).2.2.mpr
      ⟨.upsertSenderServiceOp, by decide, by decide⟩⟩

/-- C3: per PlanningStage execution the notification store is written at
most once; a write only happens when at least one channel is eligible; a
NONE result comes with no notification-store write; and conversely, on every
decoded input where neither the email nor the webhook channel is eligible
the stage (completing its upsert) returns NONE, performs no
notification-store write and leaves the notification store unchanged. -/
theorem C3_notification_written_at_most_once (env : PlanEnv) (st : PlanStores)
    (input : Option CreateNotificationActivityInput) (out : PlanOut)
    (h : getCreateNotificationActivityHandler env st input = out) :
    out.ops.count .createNotificationOp ≤ 1
    ∧ out.stores.notifications.length ≤ st.notifications.length + 1
    ∧ (out.ops.contains .createNotificationOp = true →
        ∃ inp, input = some inp
          ∧ (emailEligible inp || webhookEligible inp) = true)
    ∧ (out.result = .ok .noneResult →
        out.ops.contains .createNotificationOp = false
          ∧ out.stores.notifications = st.notifications)
    ∧ (∀ inp u, input = some inp → env.upsertResult = .ok u →
        (emailEligible inp || webhookEligible inp) = false →
        out.result = .ok .noneResult
          ∧ out.ops.contains .createNotificationOp = false
          ∧ out.stores.notifications = st.notifications) := by
  subst h
  rcases input with _ | inp
  · simp [getCreateNotificationActivityHandler]
  · unfold getCreateNotificationActivityHandler
    rcases hu : env.upsertResult with e | u
    · simp [List.count, List.contains, hu]
    · simp only
      split
      · simp [List.count, List.contains]
      · next hnone =>
        have helig : (emailEligible inp || webhookEligible inp) = true := by
          rw [← maybeEmailNotificationAddress_isSome inp,
              ← maybeWebhookNotificationUrl_isSome env.defaultWebhookUrl inp]
          rcases h1 : maybeEmailNotificationAddress inp with _ | x
          · rcases h2 : maybeWebhookNotificationUrl env.defaultWebhookUrl inp
                with _ | y
            · exact absurd (by rw [h1, h2]; rfl) hnone
            · simp
          · simp
        rcases hc : env.createResult with e | v
        · refine ⟨by simp [List.count], by simp, ?_, by simp, ?_⟩
          · simp [List.contains]
            exact Bool.or_eq_true_iff.mp helig
          · intro inp' u' h1 h2 h3
            obtain rfl : inp' = inp := by
              injection h1 with h1'
              exact h1'.symm
            rw [helig] at h3
            cases h3
        · refine ⟨by simp [List.count], by simp, ?_, by simp, ?_⟩
          · simp [List.contains]
            exact Bool.or_eq_true_iff.mp helig
          · intro inp' u' h1 h2 h3
            obtain rfl : inp' = inp := by
              injection h1 with h1'
              exact h1'.symm
            rw [helig] at h3
            cases h3

/-- C3 witness: with both channels ineligible (email disabled, webhook
disabled) the PlanningStage returns NONE, performs no notification-store
write and leaves the notification store unchanged. -/
theorem C3_notification_written_at_most_once_witness :
    (getCreateNotificationActivityHandler planEnvOk planStoresEmpty
        (some planInputAllOff)).result = .ok .noneResult
    ∧ (getCreateNotificationActivityHandler planEnvOk planStoresEmpty
        (some planInputAllOff)).ops.contains .createNotificationOp = false
    ∧ (getCreateNotificationActivityHandler planEnvOk planStoresEmpty
        (some planInputAllOff)).stores.notifications
      = planStoresEmpty.notifications :=
  (C3_notification_written_at_most_once planEnvOk planStoresEmpty
    (some planInputAllOff) _ rfl).2.2.2.2 planInputAllOff () rfl rfl
    (by decide)

/-- C4: for every decoded PlanningStage input the sender-history upsert is
invoked exactly once and is the first store call performed, and when the
result is NONE it is the only store call, with no notification written. -/
theorem C4_sender_history_upsert_always_once (env : PlanEnv) (st : PlanStores)
    (inp : CreateNotificationActivityInput) (out : PlanOut)
    (h : getCreateNotificationActivityHandler env st (some inp) = out) :
    out.ops.count .upsertSenderServiceOp = 1
    ∧ out.ops.head? = some .upsertSenderServiceOp
    ∧ (out.result = .ok .noneResult →
        out.ops = [.upsertSenderServiceOp]
          ∧ out.stores.notifications = st.notifications) := by
  subst h
  unfold getCreateNotificationActivityHandler
  rcases hu : env.upsertResult with e | u
  · simp [List.count]
  · simp only
    split
    · simp [List.count]
    · rcases hc : env.createResult with e | v
      · simp [List.count]
      · simp [List.count]

/-- C4 witness: with both channels disabled the PlanningStage yields NONE
yet still performs exactly the sender-history upsert. -/
theorem C4_sender_history_upsert_always_once_witness :
    (getCreateNotificationActivityHandler planEnvOk planStoresEmpty
        (some planInputAllOff)).ops.count .upsertSenderServiceOp = 1
    ∧ (getCreateNotificationActivityHandler planEnvOk planStoresEmpty
        (some planInputAllOff)).ops = [.upsertSenderServiceOp] :=
  ⟨(C4_sender_history_upsert_always_once planEnvOk planStoresEmpty
      planInputAllOff _ rfl).1,
    ((C4_sender_history_upsert_always_once planEnvOk planStoresEmpty
      planInputAllOff _ rfl).2.2 (by decide)).1⟩

def profileInboxOffBlocked : RetrievedProfile :=
  { fiscalCode := "AAABBB80A01C123D", isInboxEnabled := some false,
    isEmailEnabled := true, isWebhookEnabled := none,
    email := none,
    blockedInboxOrChannels := some [("service1", [.INBOX])] }

def storageEnvInboxOffBlocked : StorageEnv :=
  { findProfileResult := .ok (some profileInboxOffBlocked),
    attachResult := .ok (), setPendingResult := .ok () }

def profileInboxOnBlocked : RetrievedProfile :=
  { fiscalCode := "AAABBB80A01C123D", isInboxEnabled := some true,
    isEmailEnabled := true, isWebhookEnabled := none,
    email := none,
    blockedInboxOrChannels := some [("service1", [.INBOX])] }

def storageEnvInboxOnBlocked : StorageEnv :=
  { findProfileResult := .ok (some profileInboxOnBlocked),
    attachResult := .ok (), setPendingResult := .ok () }

/-- C5 counterexample: a profile whose block list for the sender contains
INBOX but whose `isInboxEnabled` flag is false makes the StorageStage return
FAILURE(MASTER_INBOX_DISABLED), not FAILURE(SENDER_BLOCKED): the inbox flag
is checked before the sender block list, so the claim does not hold
universally over all such profiles. -/
theorem C5_sender_blocked_cex :
    (blockedChannelsFor profileInboxOffBlocked
      eventFix.message.senderServiceId).contains .INBOX = true
    ∧ (getStoreMessageContentActivityHandler storageEnvInboxOffBlocked
        storageStoresEmpty (some eventFix)).result
      = .ok (.FAILURE .MASTER_INBOX_DISABLED)
    ∧ (getStoreMessageContentActivityHandler storageEnvInboxOffBlocked
        storageStoresEmpty (some eventFix)).result
      ≠ .ok (.FAILURE .SENDER_BLOCKED) :=
  ⟨by decide, by decide, by decide⟩

/-- C5 (amended): for every profile that is found, whose `isInboxEnabled`
flag is true, and whose block list for the message's sender contains INBOX,
the StorageStage returns FAILURE(SENDER_BLOCKED). -/
theorem C5_sender_blocked_amended (env : StorageEnv) (st : StorageStores)
    (ev : CreatedMessageEvent) (profile : RetrievedProfile)
    (hf : env.findProfileResult = .ok (some profile))
    (hi : profile.isInboxEnabled = some true)
    (hb : (blockedChannelsFor profile ev.message.senderServiceId).contains
      .INBOX = true) :
    (getStoreMessageContentActivityHandler env st (some ev)).result
      = .ok (.FAILURE .SENDER_BLOCKED) := by
  have hb' : Channel.INBOX
      ∈ blockedChannelsFor profile ev.message.senderServiceId := by
    simpa using hb
  unfold getStoreMessageContentActivityHandler
  simp [hf, hi, hb']

/-- C5 witness: with the inbox enabled and INBOX blocked for the sender the
StorageStage returns FAILURE(SENDER_BLOCKED). -/
theorem C5_sender_blocked_amended_witness :
    (getStoreMessageContentActivityHandler storageEnvInboxOnBlocked
        storageStoresEmpty (some eventFix)).result
      = .ok (.FAILURE .SENDER_BLOCKED) :=
  C5_sender_blocked_amended storageEnvInboxOnBlocked storageStoresEmpty
    eventFix profileInboxOnBlocked rfl rfl (by decide)

/-- Looking up the key just upserted yields max(existing, incoming). -/
theorem upsertVersion_lookup (store : List ((String × String) × Nat))
    (fiscalCode senderServiceId : String) (version : Nat) :
    (upsertVersion store fiscalCode senderServiceId version).lookup
        (fiscalCode, senderServiceId)
      = some (max ((store.lookup (fiscalCode, senderServiceId)).getD version)
          version) := by
  unfold upsertVersion
  rcases h : store.lookup (fiscalCode, senderServiceId) with _ | v
  · simp [List.lookup]
  · simp [List.lookup]

/-- When the upsert succeeds, the sender-history store after a decoded
PlanningStage run is exactly the upsert of the incoming
(fiscalCode, senderServiceId, serviceVersion), whatever else happens. -/
theorem planHandler_senderHistory (env : PlanEnv) (st : PlanStores)
    (inp : CreateNotificationActivityInput) (u : Unit)
    (hu : env.upsertResult = .ok u) :
    (getCreateNotificationActivityHandler env st
        (some inp)).stores.senderHistory
      = upsertVersion st.senderHistory
          inp.createdMessageEvent.message.fiscalCode
          inp.createdMessageEvent.message.senderServiceId
          inp.createdMessageEvent.serviceVersion := by
  unfold getCreateNotificationActivityHandler
  simp only [hu]
  split
  · rfl
  · rcases hc : env.createResult with e | v <;> rfl

def eventFixV1 : CreatedMessageEvent :=
  { message := messageFix, content := "body", serviceVersion := 1,
    senderMetadata := senderMetadataFix }

def planInputFixV1 : CreateNotificationActivityInput :=
  { createdMessageEvent := eventFixV1, blockedInboxOrChannels := [],
    profile := profileFull }

/-- C6: the sender-history upsert stores max(existing, incoming), and two
PlanningStage invocations for the same (recipientId, senderServiceId) with
versions 3 then 1 leave the stored record at version 3. -/
theorem C6_sender_history_version_monotonic :
    (∀ (store : List ((String × String) × Nat)) (fc svc : String) (v : Nat),
      (upsertVersion store fc svc v).lookup (fc, svc)
        = some (max ((store.lookup (fc, svc)).getD v) v))
    ∧ ∀ (env1 env2 : PlanEnv) (st : PlanStores)
        (inp1 inp2 : CreateNotificationActivityInput) (u1 u2 : Unit),
        env1.upsertResult = .ok u1 → env2.upsertResult = .ok u2 →
        inp2.createdMessageEvent.message.fiscalCode
          = inp1.createdMessageEvent.message.fiscalCode →
        inp2.createdMessageEvent.message.senderServiceId
          = inp1.createdMessageEvent.message.senderServiceId →
        inp1.createdMessageEvent.serviceVersion = 3 →
        inp2.createdMessageEvent.serviceVersion = 1 →
        st.senderHistory.lookup (inp1.createdMessageEvent.message.fiscalCode,
          inp1.createdMessageEvent.message.senderServiceId) = none →
        (getCreateNotificationActivityHandler env2
            (getCreateNotificationActivityHandler env1 st
              (some inp1)).stores
            (some inp2)).stores.senderHistory.lookup
          (inp1.createdMessageEvent.message.fiscalCode,
            inp1.createdMessageEvent.message.senderServiceId) = some 3 := by
  constructor
  · exact upsertVersion_lookup
  · intro env1 env2 st inp1 inp2 u1 u2 h1 h2 hfc hsvc hv1 hv2 h0
    rw [planHandler_senderHistory env2 _ inp2 u2 h2, hfc, hsvc, hv2]
    rw [planHandler_senderHistory env1 st inp1 u1 h1, hv1]
    rw [upsertVersion_lookup, upsertVersion_lookup, h0]
    simp

/-- C6 witness: two concrete PlanningStage runs with serviceVersion 3 then 1
for the same recipient and sender leave the stored version at 3. -/
theorem C6_sender_history_version_monotonic_witness :
    (getCreateNotificationActivityHandler planEnvOk
        (getCreateNotificationActivityHandler planEnvOk planStoresEmpty
          (some planInputFix)).stores
        (some planInputFixV1)).stores.senderHistory.lookup
      ("AAABBB80A01C123D", "service1") = some 3 :=
  C6_sender_history_version_monotonic.2 planEnvOk planEnvOk planStoresEmpty
    planInputFix planInputFixV1 () () rfl rfl rfl rfl rfl rfl rfl

/-- Re-storing identical content bytes overwrites with the same entry. -/
theorem blobPut_idem (blobs : List ((String × String) × String))
    (messageId fiscalCode content : String) :
    blobPut (blobPut blobs messageId fiscalCode content)
        messageId fiscalCode content
      = blobPut blobs messageId fiscalCode content := by
  unfold blobPut
  simp [List.filter_filter]

/-- Re-setting the pending flag to the same value is a no-op. -/
theorem setPendingRecord_idem (messages : List ((String × String) × Bool))
    (messageId fiscalCode : String) (pending : Bool) :
    setPendingRecord (setPendingRecord messages messageId fiscalCode pending)
        messageId fiscalCode pending
      = setPendingRecord messages messageId fiscalCode pending := by
  unfold setPendingRecord
  simp [List.filter_filter]

/-- C7: running the ContentStore write followed by the VisibilityFlip twice
with identical (messageId, recipientId, content) leaves the stores in the
same final state as running them once; that state holds the content bytes
under (messageId, recipientId) and pending = false; consequently a second
StorageStage run on the resulting stores reproduces the first run exactly. -/
theorem C7_storage_idempotence (st : StorageStores)
    (messageId fiscalCode content : String) :
    (StorageStores.mk
        (blobPut (blobPut st.blobs messageId fiscalCode content)
          messageId fiscalCode content)
        (setPendingRecord (setPendingRecord st.messages messageId fiscalCode
          false) messageId fiscalCode false)
      = StorageStores.mk (blobPut st.blobs messageId fiscalCode content)
          (setPendingRecord st.messages messageId fiscalCode false))
    ∧ (blobPut st.blobs messageId fiscalCode content).lookup
        (messageId, fiscalCode) = some content
    ∧ (setPendingRecord st.messages messageId fiscalCode false).lookup
        (messageId, fiscalCode) = some false
    ∧ ∀ env input,
        getStoreMessageContentActivityHandler env
          (getStoreMessageContentActivityHandler env st input).stores input
        = getStoreMessageContentActivityHandler env st input := by
  refine ⟨by rw [blobPut_idem, setPendingRecord_idem], ?_, ?_, ?_⟩
  · unfold blobPut; simp [List.lookup]
  · unfold setPendingRecord; simp [List.lookup]
  · intro env input
    rcases input with _ | ev
    · rfl
    · unfold getStoreMessageContentActivityHandler
      rcases hf : env.findProfileResult with e | mp
      · simp
      · rcases mp with _ | p
        · simp
        · simp only
          split
          · simp
          · split
            · simp
            · rcases ha : env.attachResult with e | u
              · simp
              · rcases hs : env.setPendingResult with e | u'
                · simp [blobPut_idem]
                · simp [blobPut_idem, setPendingRecord_idem]

def storageEnvNoProfile : StorageEnv :=
  { findProfileResult := .ok none, attachResult := .ok (),
    setPendingResult := .ok () }

/-- C8: when the profile store holds no record for the recipient, the
StorageStage returns FAILURE(PROFILE_NOT_FOUND), leaves the stores untouched
and performs no write (its only store access is the profile lookup). -/
theorem C8_profile_not_found_no_writes (env : StorageEnv)
    (st : StorageStores) (ev : CreatedMessageEvent)
    (h : env.findProfileResult = .ok none) :
    getStoreMessageContentActivityHandler env st (some ev)
      = ⟨.ok (.FAILURE .PROFILE_NOT_FOUND), st, [.findProfileOp]⟩ := by
  unfold getStoreMessageContentActivityHandler
  simp [h]

/-- C8 witness: a concrete run against an empty profile store. -/
theorem C8_profile_not_found_no_writes_witness :
    getStoreMessageContentActivityHandler storageEnvNoProfile
        storageStoresEmpty (some eventFix)
      = ⟨.ok (.FAILURE .PROFILE_NOT_FOUND), storageStoresEmpty,
          [.findProfileOp]⟩ :=
  C8_profile_not_found_no_writes storageEnvNoProfile storageStoresEmpty
    eventFix rfl

/-- C9: an input that fails to decode makes the StorageStage return
FAILURE(BAD_DATA) and the PlanningStage return NONE, in both cases with no
store access (empty trace, stores untouched) and without raising. -/
theorem C9_bad_input_no_store_access (env : StorageEnv) (st : StorageStores)
    (penv : PlanEnv) (pst : PlanStores) :
    getStoreMessageContentActivityHandler env st none
      = ⟨.ok (.FAILURE .BAD_DATA), st, []⟩
    ∧ getCreateNotificationActivityHandler penv pst none
      = ⟨.ok .noneResult, pst, []⟩ :=
  ⟨rfl, rfl⟩

/-- C10: although the result type enumerates PERMANENT_ERROR, the handler
never returns it: every returned FAILURE reason is one of BAD_DATA,
PROFILE_NOT_FOUND, MASTER_INBOX_DISABLED, SENDER_BLOCKED. -/
theorem C10_permanent_error_never_returned (env : StorageEnv)
    (st : StorageStores) (input : Option CreatedMessageEvent)
    (r : StoreReason)
    (h : (getStoreMessageContentActivityHandler env st input).result
      = .ok (.FAILURE r)) :
    r ≠ .PERMANENT_ERROR
    ∧ (r = .BAD_DATA ∨ r = .PROFILE_NOT_FOUND ∨ r = .MASTER_INBOX_DISABLED
        ∨ r = .SENDER_BLOCKED) := by
  have hc := storageFailureReasonCases env st input r h
  refine ⟨?_, hc⟩
  rcases hc with h1 | h1 | h1 | h1 <;> simp [h1]

/-- C10 witness: the BAD_DATA failure returned on an undecodable input is a
terminal reason distinct from PERMANENT_ERROR. -/
theorem C10_permanent_error_never_returned_witness :
    StoreReason.BAD_DATA ≠ .PERMANENT_ERROR
    ∧ (StoreReason.BAD_DATA = .BAD_DATA
        ∨ StoreReason.BAD_DATA = .PROFILE_NOT_FOUND
        ∨ StoreReason.BAD_DATA = .MASTER_INBOX_DISABLED
        ∨ StoreReason.BAD_DATA = .SENDER_BLOCKED) :=
  C10_permanent_error_never_returned storageEnvOk storageStoresEmpty none
    .BAD_DATA rfl
